import Mathlib

/-!
Shallow embedding of `src/scraper.py` (researchersec/hltvsele), class `HLTVDownloader`.

The embedding models:
* the Python string operations the scraper uses (`in`, `endswith`, `lower`,
  `strip`, `split(sep)[-1]`), character-exactly, over `List Char`;
* the three `re.search` calls of `_find_download_url_from_html`, whose patterns all
  have the shape `LIT \s* = \s* ['"] (.*?) ['"] \s* ;` for a fixed literal `LIT`
  (leftmost match, non-greedy capture that cannot cross a newline);
* `urllib.parse.urlparse(url).path` and `os.path.basename` as used by
  `_extract_filename_from_url` (fragment strip, scheme strip, netloc strip, query
  strip, params split in the last path segment);
* `get_flaresolverr_solution` as a fold over per-attempt outcomes, additionally
  returning the list of inter-attempt sleep durations and the number of attempts
  performed (the Python function only returns the result; sleeps and attempt count
  are made observable so timing claims can be stated);
* `monitor_download` as a step function over a trace of per-poll-tick directory
  observations: each tick records the files seen by `glob("*")` in enumeration
  order together with the outcome `stat()` would give for each name (`none`
  standing for `FileNotFoundError`).  The end of the trace is the elapse of
  `download_timeout`.  The success value is enriched with the size read at the
  completing `stat`, which is the value the code assigns to the progress bar
  (`pbar.n = file_size`) before returning the path;
* `download_demo` over an oracle environment fixing the outcome of each browser
  side effect (driver construction, navigations, the body wait) and the tick
  trace; cookie injection and the navigated URL strings are not tracked because
  `_set_cookies` swallows all its errors and navigation outcomes are oracle
  inputs.  The run records whether a driver was constructed and whether
  `driver.quit()` was invoked.
-/

namespace HLTVScraper

/-- Python `str.isspace` characters relevant to `strip()`, ASCII range. -/
def isPySpace (c : Char) : Bool :=
  c = ' ' || c = '\t' || c = '\n' || c = '\r' || c = '\x0b' || c = '\x0c'

/-- Does the first list occur as a prefix of the second? -/
def leadsWith : List Char → List Char → Bool
  | [], _ => true
  | _ :: _, [] => false
  | a :: as, b :: bs => a == b && leadsWith as bs

/-- Python substring test `needle in hay`. -/
def containsChars (needle : List Char) : List Char → Bool
  | [] => leadsWith needle []
  | c :: rest => leadsWith needle (c :: rest) || containsChars needle rest

def strContains (needle hay : String) : Bool :=
  containsChars needle.data hay.data

/-- Python `s.endswith(suffix)`. -/
def strEndsWith (s suffix : String) : Bool :=
  leadsWith suffix.data.reverse s.data.reverse

/-- ASCII lowering, the fragment of Python `str.lower` exercised here. -/
def lowerChar (c : Char) : Char :=
  if 65 ≤ c.toNat ∧ c.toNat ≤ 90 then Char.ofNat (c.toNat + 32) else c

def strLower (s : String) : String := String.mk (s.data.map lowerChar)

/-- Python `s.strip()`. -/
def trimChars (s : List Char) : List Char :=
  ((s.dropWhile isPySpace).reverse.dropWhile isPySpace).reverse

def strTrim (s : String) : String := String.mk (trimChars s.data)

/-- Suffix that follows the last occurrence of `sep`, `none` when `sep` does not
occur.  For a separator with no self-overlap, such as `"url="`, this is the last
element of Python `s.split(sep)` when an occurrence exists. -/
def afterLastAux (sep : List Char) : List Char → Option (List Char)
  | [] => none
  | c :: rest =>
      match afterLastAux sep rest with
      | some t => some t
      | none =>
          if leadsWith sep (c :: rest) then some ((c :: rest).drop sep.length) else none

/-- Python `s.split(sep)[-1]` for a non-self-overlapping separator: the whole
string when `sep` does not occur. -/
def strAfterLast (sep s : String) : String :=
  String.mk ((afterLastAux sep.data s.data).getD s.data)

/-- Quote characters of the regex character class in the redirect patterns. -/
def isQuote (c : Char) : Bool := c = '"' || c = Char.ofNat 39

/-- After a candidate closing quote: does `\s*;` match here? -/
def closesHere (rest : List Char) : Bool :=
  match rest.dropWhile isPySpace with
  | c :: _ => c = ';'
  | [] => false

/-- Non-greedy capture `(.*?)` followed by a quote and `\s*;`: the shortest
prefix, none of whose characters is a newline, whose following character is a
quote after which `\s*;` matches. -/
def captureQuoted : List Char → Option (List Char)
  | [] => none
  | c :: rest =>
      if isQuote c && closesHere rest then some []
      else if c = '\n' then none
      else
        match captureQuoted rest with
        | some cap => some (c :: cap)
        | none => none

/-- Tail of the redirect patterns after the fixed literal:
`\s* = \s* ['"] (.*?) ['"] \s* ;`, returning the capture. -/
def matchTail (s : List Char) : Option (List Char) :=
  match s.dropWhile isPySpace with
  | '=' :: r1 =>
      match r1.dropWhile isPySpace with
      | c :: r2 => if isQuote c then captureQuoted r2 else none
      | [] => none
  | _ => none

/-- Leftmost `re.search` for a pattern `LIT \s*=\s* ['"](.*?)['"] \s*;`:
scan positions left to right, at each trying the full pattern. -/
def searchAssign (lit : List Char) : List Char → Option (List Char)
  | [] => none
  | c :: rest =>
      if leadsWith lit (c :: rest) then
        match matchTail ((c :: rest).drop lit.length) with
        | some cap => some cap
        | none => searchAssign lit rest
      else searchAssign lit rest

/-- Characters Python accepts inside a URL scheme. -/
def schemeChar (c : Char) : Bool := c.isAlpha || c.isDigit || c = '+' || c = '-' || c = '.'

/-- Split at the first colon, when any. -/
def splitColon : List Char → Option (List Char × List Char)
  | [] => none
  | c :: rest =>
      if c = ':' then some ([], rest)
      else
        match splitColon rest with
        | some (b, a) => some (c :: b, a)
        | none => none

/-- Drop a leading `scheme:` when the part before the first colon is a valid,
nonempty scheme (first character alphabetic, the rest scheme characters). -/
def dropScheme (s : List Char) : List Char :=
  match splitColon s with
  | some (b, a) =>
      (match b with
       | [] => s
       | c :: cs => if c.isAlpha && cs.all schemeChar then a else s)
  | none => s

/-- Drop a leading `//netloc`: the netloc extends to the first of `/`, `?`, `#`. -/
def dropNetloc (s : List Char) : List Char :=
  match s with
  | '/' :: '/' :: rest => rest.dropWhile (fun c => c ≠ '/' ∧ c ≠ '?' ∧ c ≠ '#')
  | _ => s

/-- Segment after the last `/` (the whole list when there is none). -/
def lastSeg (p : List Char) : List Char :=
  (p.reverse.takeWhile (fun c => c ≠ '/')).reverse

/-- Python `urlparse` splits `;params` off the last path segment. -/
def dropParams (p : List Char) : List Char :=
  let seg := lastSeg p
  p.take (p.length - seg.length) ++ seg.takeWhile (fun c => c ≠ ';')

/-- Model of `urllib.parse.urlparse(url).path`. -/
def urlparse_path (url : List Char) : List Char :=
  dropParams
    (((dropNetloc (dropScheme url)).takeWhile (fun c => c ≠ '#')).takeWhile
      (fun c => c ≠ '?'))

/-- Model of `HLTVDownloader._extract_filename_from_url`: `os.path.basename` of
the parsed path, `None` for an empty basename. -/
def extract_filename_from_url (url : String) : Option String :=
  let p := lastSeg (urlparse_path url.data)
  if p = [] then none else some (String.mk p)

/-- `HLTVDownloader.TEMP_EXTENSIONS`. -/
def TEMP_EXTENSIONS : List String := [".crdownload", ".part", ".tmp"]

/-- `HLTVDownloader.DEMO_EXTENSIONS`. -/
def DEMO_EXTENSIONS : List String := [".rar", ".zip", ".dem", ".7z"]

/-- Name carries a temporary-marker suffix.  The source checks the suffix on the
full path string; the temporary extensions contain no path separator, so this is
equivalent to checking the file name. -/
def isTempName (name : String) : Bool :=
  TEMP_EXTENSIONS.any (fun e => strEndsWith name e)

/-- Name carries a recognized final-artifact extension. -/
def isDemoName (name : String) : Bool :=
  DEMO_EXTENSIONS.any (fun e => strEndsWith name e)

/-- Parsed view of the page markup as consumed by `_find_download_url_from_html`:
the `content` attribute of the first `meta` tag with `http-equiv="refresh"` (when
present), and the `.string` body of each `script` tag in document order (`none`
when BeautifulSoup yields no string for the tag). -/
structure Document where
  metaRefreshContent : Option String
  scripts : List (Option String)
  deriving DecidableEq

/-- Truthiness of the candidate URL as used by the Python `if not download_url`
and `if download_url` tests: an empty string is falsy. -/
def truthyUrl : Option String → Bool
  | some s => s != ""
  | none => false

/-- Meta-refresh branch: requires a truthy `content` whose lowering contains
`"url="`; the split itself is on the original, case-sensitive `"url="`. -/
def metaRefreshUrl (doc : Document) : Option String :=
  match doc.metaRefreshContent with
  | some content =>
      if content != "" && strContains "url=" (strLower content) then
        some (strTrim (strAfterLast "url=" content))
      else none
  | none => none

def litWinLoc : List Char := "window.location".data

def litWinLocHref : List Char := "window.location.href".data

def litLocHref : List Char := "location.href".data

/-- Accept a regex capture only when its extension is recognized, otherwise fall
through to the alternative (the next pattern). -/
def acceptCap (o : Option (List Char)) (alt : Option String) : Option String :=
  match o with
  | some cap => if isDemoName (String.mk cap) then some (String.mk cap) else alt
  | none => alt

/-- The three patterns of the script-redirect branch, tried in source order; for
each pattern only its leftmost match in the script is considered. -/
def scriptRedirect (s : String) : Option String :=
  acceptCap (searchAssign litWinLoc s.data)
    (acceptCap (searchAssign litWinLocHref s.data)
      (acceptCap (searchAssign litLocHref s.data) none))

/-- Scan scripts in document order; a script is consulted only when its body is
truthy and contains `"window.location"`; stop at the first accepted URL. -/
def scanScripts : List (Option String) → Option (String × Option String)
  | [] => none
  | none :: rest => scanScripts rest
  | some s :: rest =>
      if s != "" && strContains "window.location" s then
        match scriptRedirect s with
        | some u => some (u, extract_filename_from_url u)
        | none => scanScripts rest
      else scanScripts rest

/-- Model of `HLTVDownloader._find_download_url_from_html`: returns the pair
`(download_url, expected_filename)`. -/
def find_download_url_from_html (doc : Document) : Option String × Option String :=
  let du := metaRefreshUrl doc
  let ef := match du with
            | some u => extract_filename_from_url u
            | none => none
  if truthyUrl du then (du, ef)
  else
    match scanScripts doc.scripts with
    | some (u, f) => (some u, f)
    | none => (du, ef)

/-- Payload of a successful solve: `solution.response`, `solution.cookies`
(abstracted to name/value pairs), `solution.userAgent`. -/
structure FlareSolution where
  response : String
  cookies : List (String × String)
  userAgent : String
  deriving DecidableEq

/-- JSON body of a FlareSolverr response, with the fields the code reads.  A
missing `solution` stands for the `KeyError` the generic handler absorbs. -/
structure FSBody where
  status : Option String
  message : Option String
  solution : Option FlareSolution
  deriving DecidableEq

/-- Outcome of one `requests.post` attempt: a transport error
(`requests.exceptions.RequestException`), any other raised error, or an HTTP
response with a status code and parsed body. -/
inductive AttemptOutcome where
  | netError (msg : String)
  | otherError (msg : String)
  | httpResponse (code : Nat) (body : FSBody)
  deriving DecidableEq

/-- The `FlareSolverrResult` dataclass. -/
structure FlareSolverrResult where
  success : Bool
  html : Option String
  cookies : Option (List (String × String))
  user_agent : Option String
  error : Option String
  deriving DecidableEq

/-- One attempt of the retry loop body: `some r` means the attempt returns `r`
immediately, `none` means the attempt failed and the loop continues. -/
def attemptResult : AttemptOutcome → Option FlareSolverrResult
  | .netError _ => none
  | .otherError _ => none
  | .httpResponse code body =>
      if code = 200 then
        if body.status = some "ok" then
          match body.solution with
          | some sol =>
              some ⟨true, some sol.response, some sol.cookies, some sol.userAgent, none⟩
          | none => none
        else none
      else none

/-- Failure condition of claim C5 on one attempt: a transport or other error, or
a response with HTTP code other than 200 or a status field other than `"ok"`. -/
def claimFailCond : AttemptOutcome → Bool
  | .netError _ => true
  | .otherError _ => true
  | .httpResponse code body => (code != 200) || (body.status != some "ok")

/-- The terminal failure value built after the loop. -/
def failResult : FlareSolverrResult :=
  ⟨false, none, none, none, some "Max retries exceeded"⟩

/-- The retry loop of `get_flaresolverr_solution`: `i` is the current attempt
index, the second argument the number of attempts remaining.  Returns the
result, the inter-attempt sleep durations in order, and the number of attempts
performed.  `time.sleep(5)` runs only when further attempts remain. -/
def flareGo (attempts : Nat → AttemptOutcome) : Nat → Nat → FlareSolverrResult × List Nat × Nat
  | _, 0 => (failResult, [], 0)
  | i, rem + 1 =>
      match attemptResult (attempts i) with
      | some r => (r, [], 1)
      | none =>
          let t := flareGo attempts (i + 1) rem
          (t.1, (if rem = 0 then [] else [5]) ++ t.2.1, t.2.2 + 1)

/-- Model of `HLTVDownloader.get_flaresolverr_solution`, with the per-attempt
outcomes supplied as an oracle.  Total: every raised error is absorbed by the
handlers inside the loop, so nothing escapes the client boundary. -/
def get_flaresolverr_solution (retry_count : Nat) (attempts : Nat → AttemptOutcome) :
    FlareSolverrResult × List Nat × Nat :=
  flareGo attempts 0 retry_count

/-- One file as observed on a poll tick: its name, whether `is_file()` holds,
and the outcome of `stat().st_size` on it (`none` for `FileNotFoundError`). -/
structure FileObs where
  name : String
  isFile : Bool
  size : Option Nat
  deriving DecidableEq

/-- One poll tick: the entries `glob("*")` enumerates, in enumeration order. -/
structure Tick where
  files : List FileObs
  deriving DecidableEq

/-- Loop state of `monitor_download`: `monitored_file`, `last_size`, and the
progress bar (its running `n` counter when initialized). -/
structure MonState where
  monitored : Option String
  lastSize : Nat
  pbar : Option Int
  deriving DecidableEq

/-- The `expected_filename and expected_filename in filename` test: an empty
expected filename is falsy. -/
def expMatch (expected : Option String) (name : String) : Bool :=
  match expected with
  | some e => (e != "") && strContains e name
  | none => false

/-- The per-tick selection loop over enumerated files: break at the first file
matching the expected filename, break at the first file with a temporary-marker
suffix, remember (without breaking) each file with a final-marker extension,
otherwise keep the previously monitored file. -/
def selectFile (expected : Option String) : List FileObs → Option String → Option String
  | [], cur => cur
  | f :: rest, cur =>
      if !f.isFile then selectFile expected rest cur
      else if expMatch expected f.name then some f.name
      else if isTempName f.name then some f.name
      else if isDemoName f.name then selectFile expected rest (some f.name)
      else selectFile expected rest cur

/-- Outcome of `stat()` on a name at this tick, per the tick's observation. -/
def statL (name : String) : List FileObs → Option Nat
  | [] => none
  | f :: rest => if f.name = name then f.size else statL name rest

/-- One iteration of the `while` loop of `monitor_download`.  `Sum.inl` is a
state to continue from after `time.sleep(poll_interval)`; `Sum.inr (p, n)` is
the return of path `p` after finalizing the progress display to size `n`.  A
vanished file (`FileNotFoundError`) resets the tracking state.  Raised errors
other than `FileNotFoundError` (the generic handler) are not modeled. -/
def stepTick (expected : Option String) (t : Tick) (st : MonState) :
    MonState ⊕ (String × Nat) :=
  match selectFile expected t.files st.monitored with
  | none => Sum.inl st
  | some name =>
      match statL name t.files with
      | none => Sum.inl ⟨none, 0, none⟩
      | some size =>
          let p := st.pbar.getD 0
          if isTempName name then
            Sum.inl ⟨some name, size, some (p + ((size : Int) - (st.lastSize : Int)))⟩
          else Sum.inr (name, size)

/-- Run the loop over the remaining ticks; an exhausted trace is the elapse of
`download_timeout`, returning `None`. -/
def monitorFrom (expected : Option String) : List Tick → MonState → Option (String × Nat)
  | [], _ => none
  | t :: rest, st =>
      match stepTick expected t st with
      | Sum.inl st2 => monitorFrom expected rest st2
      | Sum.inr r => some r

/-- Model of `HLTVDownloader.monitor_download` over a trace of tick
observations, starting from the initial loop state. -/
def monitor_download (expected : Option String) (ticks : List Tick) :
    Option (String × Nat) :=
  monitorFrom expected ticks ⟨none, 0, none⟩

/-- Trace of a file growing under one name: one tick per observed size, the
named file being the only directory entry. -/
def growTicks (tmp : String) (sizes : List Nat) : List Tick :=
  sizes.map (fun s => ⟨[⟨tmp, true, some s⟩]⟩)

/-- Tick on which only the renamed file, of size `n`, is present. -/
def renameTick (fin : String) (n : Nat) : Tick := ⟨[⟨fin, true, some n⟩]⟩

/-- The fields of `DownloadConfig` that the modeled control flow reads.  Paths,
host, port, proxy and the timing constants are absorbed by the oracle traces. -/
structure DownloadConfig where
  download_dir : String
  use_undetected : Bool
  retry_count : Nat
  deriving DecidableEq

/-- The exception classes distinguished by `download_demo`'s handlers; all three
are mapped to a `None` return. -/
inductive BrowserExc where
  | timeoutEx
  | webdriverEx
  | otherEx
  deriving DecidableEq

/-- Oracle environment for one `download_demo` run: whether driver construction
succeeds, the outcome of each navigation and of the body wait, the parsed page
markup, the monitor's tick trace, and whether `driver.quit()` succeeds. -/
structure BrowserEnv where
  setupOk : Bool
  navMainExc : Option BrowserExc
  waitBodyExc : Option BrowserExc
  pageDoc : Document
  navDlExc : Option BrowserExc
  ticks : List Tick
  quitOk : Bool
  deriving DecidableEq

/-- Observable outcome of a `download_demo` run: the returned value
(`Except.error ()` when an exception escapes, which only driver construction can
cause since it runs outside the `try` block), whether a driver was constructed,
and whether `driver.quit()` was invoked. -/
structure DemoRun where
  result : Except Unit (Option (String × Nat))
  driverCreated : Bool
  quitCalled : Bool

/-- Model of `HLTVDownloader.download_demo`.  The bypass check precedes driver
construction; every exception inside the `try` block yields `None`; the
`finally` block always calls `driver.quit()` and swallows its errors, so the
result does not read `quitOk`. -/
def download_demo (cfg : DownloadConfig) (attempts : Nat → AttemptOutcome)
    (env : BrowserEnv) : DemoRun :=
  let fs := (get_flaresolverr_solution cfg.retry_count attempts).1
  if !fs.success && !cfg.use_undetected then ⟨Except.ok none, false, false⟩
  else if !env.setupOk then ⟨Except.error (), false, false⟩
  else
    let body : Option (String × Nat) :=
      match env.navMainExc with
      | some _ => none
      | none =>
          match env.waitBodyExc with
          | some _ => none
          | none =>
              let r := find_download_url_from_html env.pageDoc
              if truthyUrl r.1 then
                match env.navDlExc with
                | some _ => none
                | none => monitor_download r.2 env.ticks
              else monitor_download r.2 env.ticks
    ⟨Except.ok body, true, true⟩

/-- Attempts for the C5 witness: a transport error, then busy responses. -/
def c5Attempts : Nat → AttemptOutcome := fun i =>
  if i = 0 then .netError "connection refused"
  else .httpResponse 503 ⟨none, some "service busy", none⟩

/-- Attempts for C6: every attempt fails with a distinct solver message. -/
def c6Attempts : Nat → AttemptOutcome := fun i =>
  if i = 0 then .httpResponse 200 ⟨some "error", some "challenge failed early", none⟩
  else .httpResponse 200 ⟨some "error", some "challenge failed late", none⟩

/-- Directory for the C2 counterexample: a temporary file enumerated before the
file that matches the expected filename. -/
def c2Files : List FileObs :=
  [⟨"other.part", true, some 5⟩, ⟨"demo123.rar", true, some 10⟩]

/-- Markup for the C3 counterexample: the refresh marker in upper case. -/
def c3Doc : Document := ⟨some "5;URL=https://cdn.example/demo123.rar", []⟩

/-- Content for the C3 witness: the refresh marker in lower case. -/
def c3GoodContent : String := "5;url=https://cdn.example/demo123.rar"

/-- Script for the C4 counterexample: the first recognized quoted target is
assigned through `location.href`, a later one through `window.location.href`. -/
def c4CounterScript : String :=
  "location.href = \"https://cdn.example/a.rar\"; window.location.href = \"https://cdn.example/b.zip\";"

def c4CounterDoc : Document := ⟨none, [some c4CounterScript]⟩

def c4DemScript : String := "window.location.href = \"https://cdn.example/game.dem\";"

def c4PngScript : String := "window.location.href = \"https://cdn.example/image.png\";"

def c4RarScript : String := "window.location.href = \"https://cdn.example/x.rar\";"

/-- Tick for the C9 witness: a file enumerated by `glob` whose `stat` fails. -/
def c9Tick : Tick := ⟨[⟨"a.crdownload", true, none⟩]⟩

/-- Attempts that always fail, for the C7 witness. -/
def c7Attempts : Nat → AttemptOutcome := fun _ => .netError "flaresolverr down"

def c7Cfg : DownloadConfig := ⟨"downloads", false, 3⟩

def c7Env : BrowserEnv := ⟨true, none, none, ⟨none, []⟩, none, [], true⟩

/-- Attempts that succeed at once, for the C8 witness. -/
def c8Attempts : Nat → AttemptOutcome := fun _ =>
  .httpResponse 200 ⟨some "ok", none, some ⟨"<html></html>", [("cf_clearance", "tok")], "UA"⟩⟩

def c8Cfg : DownloadConfig := ⟨"downloads", false, 1⟩

def c8Env : BrowserEnv := ⟨true, none, none, ⟨none, []⟩, none, [⟨[]⟩, ⟨[]⟩], true⟩

/-- When every attempt fails, the retry loop starting at index `i` with `rc`
attempts remaining returns the terminal failure, sleeps `rc - 1` times for 5
seconds, and performs exactly `rc` attempts. -/
theorem flareGo_fail (attempts : Nat → AttemptOutcome) :
    ∀ rc i : Nat, (∀ j, j < rc → attemptResult (attempts (i + j)) = none) →
      flareGo attempts i rc = (failResult, List.replicate (rc - 1) 5, rc) := by
  intro rc
  induction rc with
  | zero => intro i _; rfl
  | succ rem ih =>
      intro i h
      have h0 : attemptResult (attempts i) = none := by
        have h1 := h 0 (Nat.succ_pos rem)
        simpa using h1
      have h2 : ∀ j, j < rem → attemptResult (attempts (i + 1 + j)) = none := by
        intro j hj
        have h3 := h (j + 1) (Nat.succ_lt_succ hj)
        have h4 : i + 1 + j = i + (j + 1) := by omega
        rw [h4]
        exact h3
      have hrec := ih (i + 1) h2
      simp only [flareGo, h0, hrec]
      cases rem with
      | zero => simp
      | succ k => simp [List.replicate_succ]

/-- A tick trace of a single temporary-named file keeps the monitor polling:
the loop reaches the remainder of the trace in some state. -/
theorem growSkip (expected : Option String) (tmp : String) (htmp : isTempName tmp = true)
    (sizes : List Nat) :
    ∀ (rest : List Tick) (st : MonState),
      ∃ st2, monitorFrom expected (growTicks tmp sizes ++ rest) st =
        monitorFrom expected rest st2 := by
  induction sizes with
  | nil => intro rest st; exact ⟨st, by simp [growTicks]⟩
  | cons s tail ih =>
      intro rest st
      have hsel : selectFile expected [⟨tmp, true, some s⟩] st.monitored = some tmp := by
        cases hE : expMatch expected tmp <;> simp [selectFile, hE, htmp]
      have hstepC : stepTick expected ⟨[⟨tmp, true, some s⟩]⟩ st =
          Sum.inl ⟨some tmp, s,
            some (st.pbar.getD 0 + ((s : Int) - (st.lastSize : Int)))⟩ := by
        simp [stepTick, hsel, statL, htmp]
      obtain ⟨st2, h2⟩ :=
        ih rest ⟨some tmp, s, some (st.pbar.getD 0 + ((s : Int) - (st.lastSize : Int)))⟩
      refine ⟨st2, ?_⟩
      have hg : growTicks tmp (s :: tail) ++ rest =
          (⟨[⟨tmp, true, some s⟩]⟩ : Tick) :: (growTicks tmp tail ++ rest) := by
        simp [growTicks]
      rw [hg]
      simp only [monitorFrom]
      rw [hstepC]
      exact h2

/-- A tick step only returns a file whose name is free of temporary markers. -/
theorem stepTick_inr_not_temp (expected : Option String) (t : Tick) (st : MonState)
    (name : String) (n : Nat) (h : stepTick expected t st = Sum.inr (name, n)) :
    isTempName name = false := by
  unfold stepTick at h
  cases hsel : selectFile expected t.files st.monitored with
  | none => simp only [hsel] at h; simp at h
  | some m =>
      simp only [hsel] at h
      cases hstat : statL m t.files with
      | none => simp only [hstat] at h; simp at h
      | some size =>
          simp only [hstat] at h
          by_cases htmp : isTempName m = true
          · simp [htmp] at h
          · have hm : isTempName m = false := by
              cases hb : isTempName m
              · rfl
              · exact absurd hb htmp
            simp only [hm] at h
            simp at h
            obtain ⟨h1, _⟩ := h
            rw [← h1]
            exact hm

/-- Any successful monitor run, from any loop state, returns a temp-free name. -/
theorem monitorFrom_success_not_temp (expected : Option String) :
    ∀ (ticks : List Tick) (st : MonState) (name : String) (n : Nat),
      monitorFrom expected ticks st = some (name, n) → isTempName name = false := by
  intro ticks
  induction ticks with
  | nil => intro st name n h; simp [monitorFrom] at h
  | cons t rest ih =>
      intro st name n h
      simp only [monitorFrom] at h
      cases hstep : stepTick expected t st with
      | inl st2 => simp only [hstep] at h; exact ih st2 name n h
      | inr r =>
          simp only [hstep] at h
          simp at h
          exact stepTick_inr_not_temp expected t st name n (by rw [hstep, h])

/-- A trace on which every tick enumerates no file leaves the monitor in its
initial untracked configuration and ends in the timeout return. -/
theorem monitorFrom_empty (expected : Option String) :
    ∀ ticks : List Tick, (∀ t ∈ ticks, t.files = []) →
      ∀ (ls : Nat) (pb : Option Int), monitorFrom expected ticks ⟨none, ls, pb⟩ = none := by
  intro ticks
  induction ticks with
  | nil => intro _ ls pb; rfl
  | cons t rest ih =>
      intro h ls pb
      have ht : t.files = [] := h t (by simp)
      have hstep : stepTick expected t ⟨none, ls, pb⟩ = Sum.inl ⟨none, ls, pb⟩ := by
        simp [stepTick, ht, selectFile]
      simp only [monitorFrom]
      rw [hstep]
      exact ih (fun u hu => h u (by simp [hu])) ls pb

/-- C1: on any tick whose tracked file still carries a temporary-marker suffix
the monitor does not return success, and a file growing under a temporary-marker
name through any sequence of sizes and then renamed to a final-extension name of
size `n` makes `monitor_download` return success with that file and final size
`n` on the tick the rename is observed. -/
theorem C1_monitor_completion (expected : Option String) :
    (∀ (t : Tick) (st : MonState) (name : String),
        selectFile expected t.files st.monitored = some name → isTempName name = true →
        ∀ r, stepTick expected t st ≠ Sum.inr r) ∧
    (∀ (tmp fin : String) (sizes : List Nat) (n : Nat),
        isTempName tmp = true → isTempName fin = false → isDemoName fin = true →
        monitor_download expected (growTicks tmp sizes ++ [renameTick fin n]) =
          some (fin, n)) := by
  constructor
  · intro t st name hsel htmp r
    unfold stepTick
    simp only [hsel]
    cases hstat : statL name t.files with
    | none => simp
    | some size => simp [htmp]
  · intro tmp fin sizes n htmp hfin hdemo
    obtain ⟨st2, h2⟩ := growSkip expected tmp htmp sizes [renameTick fin n] ⟨none, 0, none⟩
    unfold monitor_download
    rw [h2]
    have hsel2 : selectFile expected [⟨fin, true, some n⟩] st2.monitored = some fin := by
      cases hE : expMatch expected fin <;> simp [selectFile, hE, hfin, hdemo]
    simp [monitorFrom, renameTick, stepTick, hsel2, statL, hfin]

/-- Witness for C1: a concrete growth-then-rename trace returns the renamed
file with its final size. -/
theorem C1_monitor_completion_witness :
    (isTempName "demo123.rar.crdownload" = true ∧ isTempName "demo123.rar" = false ∧
      isDemoName "demo123.rar" = true) ∧
    monitor_download (some "demo123.rar")
        (growTicks "demo123.rar.crdownload" [0, 4096] ++ [renameTick "demo123.rar" 9000]) =
      some ("demo123.rar", 9000) :=
  ⟨⟨by decide, by decide, by decide⟩,
    (C1_monitor_completion (some "demo123.rar")).2 "demo123.rar.crdownload" "demo123.rar"
      [0, 4096] 9000 (by decide) (by decide) (by decide)⟩

/-- C2 counterexample: with expected filename `demo123.rar`, a temporary file
earlier in enumeration order is tracked instead of the file whose name matches
the expected filename, so the stated priority order (expected-name matches
first) does not hold; the monitor consequently keeps polling on that tick
instead of completing. -/
theorem C2_priority_counterexample :
    selectFile (some "demo123.rar") c2Files none = some "other.part" ∧
    selectFile (some "demo123.rar") c2Files none ≠ some "demo123.rar" ∧
    monitor_download (some "demo123.rar") [⟨c2Files⟩] = none := by decide

/-- C2 (amended): the per-tick selection scans enumeration order and breaks at
the first file that matches the expected filename or bears a temporary-marker
suffix, while a final-extension file is only remembered without breaking; in the
particular scenario of `old_leftover.rar` next to `demo123.rar.crdownload` with
expected filename `demo123.rar`, the `.crdownload` file is tracked under either
enumeration order, whatever file was tracked before and whatever the sizes. -/
theorem C2_selection_amended (cur : Option String) (s1 s2 : Option Nat) :
    selectFile (some "demo123.rar")
        [⟨"old_leftover.rar", true, s1⟩, ⟨"demo123.rar.crdownload", true, s2⟩] cur =
      some "demo123.rar.crdownload" ∧
    selectFile (some "demo123.rar")
        [⟨"demo123.rar.crdownload", true, s2⟩, ⟨"old_leftover.rar", true, s1⟩] cur =
      some "demo123.rar.crdownload" :=
  ⟨rfl, rfl⟩

/-- C3 counterexample: the guard on the refresh directive is case-insensitive
but the split is case-sensitive, so a directive whose marker appears only as
`URL=` yields the whole directive string as candidate URL, not the part after
the marker. -/
theorem C3_meta_refresh_counterexample :
    (find_download_url_from_html c3Doc).1 = some "5;URL=https://cdn.example/demo123.rar" ∧
    (find_download_url_from_html c3Doc).1 ≠ some "https://cdn.example/demo123.rar" := by
  decide

/-- C3 (amended): for every markup whose refresh directive is nonempty and
contains `url=` case-insensitively, the resolver returns, as candidate URL, the
trimmed text after the last occurrence of the case-sensitive lowercase marker
`url=` — the entire trimmed directive when the marker occurs only in another
casing — together with the filename derived from that candidate (provided the
candidate is nonempty, since an empty candidate falls through to the script
scan). -/
theorem C3_meta_refresh_amended (content : String) (scripts : List (Option String))
    (h1 : content ≠ "")
    (h2 : strContains "url=" (strLower content) = true)
    (h3 : strTrim (strAfterLast "url=" content) ≠ "") :
    find_download_url_from_html ⟨some content, scripts⟩ =
      (some (strTrim (strAfterLast "url=" content)),
        extract_filename_from_url (strTrim (strAfterLast "url=" content))) := by
  have hne : (content != "") = true := by simpa [bne_iff_ne] using h1
  have hu : metaRefreshUrl ⟨some content, scripts⟩ =
      some (strTrim (strAfterLast "url=" content)) := by
    simp [metaRefreshUrl, hne, h2]
  have ht : truthyUrl (some (strTrim (strAfterLast "url=" content))) = true := by
    simpa [truthyUrl, bne_iff_ne] using h3
  simp [find_download_url_from_html, hu, ht]

/-- Witness for C3: the documented lower-case example resolves to the bare URL
and its filename. -/
theorem C3_meta_refresh_amended_witness :
    (c3GoodContent ≠ "" ∧ strContains "url=" (strLower c3GoodContent) = true ∧
      strTrim (strAfterLast "url=" c3GoodContent) ≠ "") ∧
    find_download_url_from_html ⟨some c3GoodContent, []⟩ =
      (some "https://cdn.example/demo123.rar", some "demo123.rar") :=
  ⟨⟨by decide, by decide, by decide⟩,
    (C3_meta_refresh_amended c3GoodContent [] (by decide) (by decide) (by decide)).trans
      (by decide)⟩

/-- C4 counterexample: within one script the three assignment forms are tried in
a fixed pattern order, each considering only its leftmost match, so the resolver
returns the `window.location.href` target `b.zip` even though the quoted target
`a.rar`, assigned through `location.href`, comes first in the script and has a
recognized extension. -/
theorem C4_script_counterexample :
    (find_download_url_from_html c4CounterDoc).1 = some "https://cdn.example/b.zip" ∧
    (find_download_url_from_html c4CounterDoc).1 ≠ some "https://cdn.example/a.rar" := by
  decide

/-- C4 (amended): scripts are scanned in document order, and inside a script the
three location-assignment forms are tried in the fixed order `window.location`,
`window.location.href`, `location.href`, each contributing only its leftmost
match; the first pattern whose target carries a recognized extension wins.  The
documented examples hold: a `.dem` script target is returned with its filename,
a `.png` target yields no match, and of two scripts with recognized targets the
earlier script wins. -/
theorem C4_script_redirect_amended :
    find_download_url_from_html ⟨none, [some c4DemScript]⟩ =
      (some "https://cdn.example/game.dem", some "game.dem") ∧
    find_download_url_from_html ⟨none, [some c4PngScript]⟩ = (none, none) ∧
    (find_download_url_from_html ⟨none, [some c4RarScript, some c4DemScript]⟩).1 =
      some "https://cdn.example/x.rar" := by
  decide

/-- C5: when every attempt fails in one of the claimed ways (HTTP code other
than 200, status field other than `ok`, or a transport or other error), the
client performs exactly `retry_count` attempts, sleeps the fixed 5-second delay
between consecutive attempts but not after the final one, and returns the
terminal failure result; being a total function, nothing is raised past the
client boundary. -/
theorem C5_flaresolverr_retry_exhaustion (retry_count : Nat)
    (attempts : Nat → AttemptOutcome)
    (h : ∀ i, i < retry_count → claimFailCond (attempts i) = true) :
    get_flaresolverr_solution retry_count attempts =
      (failResult, List.replicate (retry_count - 1) 5, retry_count) := by
  have key : ∀ i, i < retry_count → attemptResult (attempts i) = none := by
    intro i hi
    have hc := h i hi
    cases hA : attempts i with
    | netError m => simp [attemptResult]
    | otherError m => simp [attemptResult]
    | httpResponse code body =>
        rw [hA] at hc
        simp only [claimFailCond, Bool.or_eq_true, bne_iff_ne, ne_eq] at hc
        rcases hc with h1 | h1
        · simp [attemptResult, h1]
        · by_cases hcode : code = 200
          · simp [attemptResult, h1, hcode]
          · simp [attemptResult, hcode]
  have hfail := flareGo_fail attempts retry_count 0 (by intro j hj; simpa using key j hj)
  simpa [get_flaresolverr_solution] using hfail

/-- Witness for C5: three failing attempts produce three tries, two sleeps, and
the terminal failure. -/
theorem C5_flaresolverr_retry_exhaustion_witness :
    (∀ i, i < 3 → claimFailCond (c5Attempts i) = true) ∧
    get_flaresolverr_solution 3 c5Attempts =
      (failResult, List.replicate (3 - 1) 5, 3) :=
  ⟨by decide, C5_flaresolverr_retry_exhaustion 3 c5Attempts (by decide)⟩

/-- C6 counterexample: after exhausting the retries the returned failure carries
the fixed string `Max retries exceeded`, not the message of the last failed
attempt (`challenge failed late`), which the code only logs. -/
theorem C6_last_error_counterexample :
    (get_flaresolverr_solution 2 c6Attempts).1.error = some "Max retries exceeded" ∧
    c6Attempts 1 = .httpResponse 200 ⟨some "error", some "challenge failed late", none⟩ ∧
    (get_flaresolverr_solution 2 c6Attempts).1.error ≠ some "challenge failed late" := by
  decide

/-- C6 (amended): whenever the client exhausts all retry attempts, the terminal
failure result carries the fixed message `Max retries exceeded`; the per-attempt
error messages are logged but never returned. -/
theorem C6_exhaustion_fixed_message (retry_count : Nat) (attempts : Nat → AttemptOutcome)
    (h : ∀ i, i < retry_count → attemptResult (attempts i) = none) :
    (get_flaresolverr_solution retry_count attempts).1.error =
      some "Max retries exceeded" := by
  have hfail := flareGo_fail attempts retry_count 0 (by intro j hj; simpa using h j hj)
  simp [get_flaresolverr_solution, hfail, failResult]

/-- Witness for C6: two failing attempts end in the fixed terminal message. -/
theorem C6_exhaustion_fixed_message_witness :
    (∀ i, i < 2 → attemptResult (c6Attempts i) = none) ∧
    (get_flaresolverr_solution 2 c6Attempts).1.error = some "Max retries exceeded" :=
  ⟨by decide, C6_exhaustion_fixed_message 2 c6Attempts (by decide)⟩

/-- C7: when the solve fails and the stealth fallback is not configured,
`download_demo` returns the bypass failure (`None`) at once: no driver is
constructed and no teardown runs. -/
theorem C7_bypass_abort (cfg : DownloadConfig) (attempts : Nat → AttemptOutcome)
    (env : BrowserEnv)
    (h1 : (get_flaresolverr_solution cfg.retry_count attempts).1.success = false)
    (h2 : cfg.use_undetected = false) :
    download_demo cfg attempts env = ⟨Except.ok none, false, false⟩ := by
  simp [download_demo, h1, h2]

/-- Witness for C7: a concrete run with an unreachable solver and no stealth
fallback aborts without a browser. -/
theorem C7_bypass_abort_witness :
    ((get_flaresolverr_solution c7Cfg.retry_count c7Attempts).1.success = false ∧
      c7Cfg.use_undetected = false) ∧
    download_demo c7Cfg c7Attempts c7Env = ⟨Except.ok none, false, false⟩ :=
  ⟨⟨by decide, by decide⟩, C7_bypass_abort c7Cfg c7Attempts c7Env (by decide) (by decide)⟩

/-- C8: when no file ever appears before the timeout, the monitor returns the
timeout failure (`none`) for any expected filename, `download_demo` surfaces
that `None` outcome while having constructed the driver and invoked
`driver.quit()`, and the outcome is the same whether or not teardown itself
succeeds. -/
theorem C8_timeout_path (cfg : DownloadConfig) (attempts : Nat → AttemptOutcome)
    (env : BrowserEnv)
    (h1 : (get_flaresolverr_solution cfg.retry_count attempts).1.success = true ∨
      cfg.use_undetected = true)
    (h2 : env.setupOk = true)
    (h3 : env.navMainExc = none) (h4 : env.waitBodyExc = none) (h5 : env.navDlExc = none)
    (h6 : ∀ t ∈ env.ticks, t.files = []) :
    (∀ e, monitor_download e env.ticks = none) ∧
    download_demo cfg attempts env = ⟨Except.ok none, true, true⟩ ∧
    ∀ q, download_demo cfg attempts
        ⟨env.setupOk, env.navMainExc, env.waitBodyExc, env.pageDoc, env.navDlExc,
          env.ticks, q⟩ =
      download_demo cfg attempts env := by
  have hmon : ∀ e, monitor_download e env.ticks = none := fun e =>
    monitorFrom_empty e env.ticks h6 0 none
  refine ⟨hmon, ?_, ?_⟩
  · have hcond : (!(get_flaresolverr_solution cfg.retry_count attempts).1.success &&
        !cfg.use_undetected) = false := by
      rcases h1 with h | h <;> simp [h]
    simp [download_demo, hcond, h2, h3, h4, h5, hmon]
  · intro q
    obtain ⟨a, b, c, d, e, f, g⟩ := env
    rfl

/-- Witness for C8: a concrete run whose ticks never show a file returns `None`
after constructing the driver and calling `quit`. -/
theorem C8_timeout_path_witness :
    ((get_flaresolverr_solution c8Cfg.retry_count c8Attempts).1.success = true ∧
      c8Env.setupOk = true ∧ c8Env.navMainExc = none ∧ c8Env.waitBodyExc = none ∧
      c8Env.navDlExc = none ∧ ∀ t ∈ c8Env.ticks, t.files = []) ∧
    download_demo c8Cfg c8Attempts c8Env = ⟨Except.ok none, true, true⟩ :=
  ⟨⟨by decide, by decide, by decide, by decide, by decide, by decide⟩,
    (C8_timeout_path c8Cfg c8Attempts c8Env (Or.inl (by decide)) (by decide) (by decide)
      (by decide) (by decide) (by decide)).2.1⟩

/-- C9: when the tracked file vanishes between enumeration and `stat` (a
`FileNotFoundError`), the monitor resets its tracking state — monitored file,
last known size and progress bar all dropped — and continues to the next tick
instead of returning a failure. -/
theorem C9_vanish_resets (expected : Option String) (t : Tick) (st : MonState)
    (name : String)
    (hsel : selectFile expected t.files st.monitored = some name)
    (hstat : statL name t.files = none) :
    stepTick expected t st = Sum.inl ⟨none, 0, none⟩ := by
  unfold stepTick
  simp only [hsel, hstat]

/-- Witness for C9: a file listed by `glob` whose `stat` fails resets the
state while the loop continues. -/
theorem C9_vanish_resets_witness :
    (selectFile none c9Tick.files (some "b.rar") = some "a.crdownload" ∧
      statL "a.crdownload" c9Tick.files = none) ∧
    stepTick none c9Tick ⟨some "b.rar", 7, some 3⟩ = Sum.inl ⟨none, 0, none⟩ :=
  ⟨⟨by decide, by decide⟩,
    C9_vanish_resets none c9Tick ⟨some "b.rar", 7, some 3⟩ "a.crdownload" (by decide)
      (by decide)⟩

/-- C10: every successful return of `monitor_download` names a file free of
every temporary-marker suffix at the moment completion is decided, regardless
of how the file was selected. -/
theorem C10_success_not_temp (expected : Option String) (ticks : List Tick)
    (name : String) (n : Nat)
    (h : monitor_download expected ticks = some (name, n)) :
    isTempName name = false :=
  monitorFrom_success_not_temp expected ticks ⟨none, 0, none⟩ name n h

/-- Witness for C10: a concrete successful run returns a temp-free name. -/
theorem C10_success_not_temp_witness :
    monitor_download none [⟨[⟨"x.rar", true, some 7⟩]⟩] = some ("x.rar", 7) ∧
    isTempName "x.rar" = false :=
  ⟨by decide,
    C10_success_not_temp none [⟨[⟨"x.rar", true, some 7⟩]⟩] "x.rar" 7 (by decide)⟩

end HLTVScraper
